import Mathlib

/-!
Verification of the natural-language specification of the
`asms-ml-short-course` teaching repository against its source.

The repository consists of three executable notebooks
(`content/04_model-evaluation.ipynb`, `notebooks/6_svms.ipynb`,
`notebooks/08_neural_networks.ipynb`) plus markdown lab guides.  This file
gives a shallow embedding of the parts of those notebooks that the claims
are about:

* a statement-level model of each notebook's code cells (raises,
  try/except blocks, ordinary calls), used for the error-handling and
  ordering claims;
* the manual ROC / precision-recall build-up computed with pandas
  `cumsum` in the model-evaluation notebook, together with a model of the
  corresponding scikit-learn routines (the latter is modelled from the
  spec, since scikit-learn is an external library whose code is not in
  this repository);
* the `save` figure-name normalization helper (filenames are modelled as
  character lists);
* the dataframe constructions of the model-evaluation notebook and the
  train/validation/test split of the neural-network notebook;
* the two class definitions of the neural-network notebook.
-/

/-- A Python statement at the granularity the claims need: an
unconditional `raise`, a `try`/`except` block (recording whether its
handler re-raises the caught exception), a conditional `assert`-style
check, or any other statement (tagged with the call it performs). -/
inductive Stmt where
  | raiseErr (msg : String) : Stmt
  | tryBlock (handlerReraises : Bool) : Stmt
  | condCheck (desc : String) : Stmt
  | call (fn : String) : Stmt
deriving DecidableEq, Repr

/-- A notebook is a list of code cells; a code cell is a list of
statements in source order. -/
abbrev Cell := List Stmt

/-- The statements of a cell that actually execute: execution proceeds in
order and stops at (and including) the first unconditional raise. -/
def reached : Cell → List Stmt
  | [] => []
  | Stmt.raiseErr m :: _ => [Stmt.raiseErr m]
  | s :: rest => s :: reached rest

/-- Whether the very first statement of a cell is an unconditional raise. -/
def firstIsRaise : Cell → Bool
  | Stmt.raiseErr _ :: _ => true
  | _ => false

/-- Whether a notebook contains a cell that opens with an unconditional
raise (a deliberate stop condition). -/
def hasStopCell (nb : List Cell) : Bool :=
  nb.any firstIsRaise

/-- Whether a statement is a try/except block. -/
def isTry : Stmt → Bool
  | Stmt.tryBlock _ => true
  | _ => false

/-- Whether a cell contains exception-handling code. -/
def cellHasTry (c : Cell) : Bool :=
  c.any isTry

/-- Whether a statement, if it is a try/except block, has a handler that
re-raises the caught exception (so the exception still propagates). -/
def reraisesIfTry : Stmt → Bool
  | Stmt.tryBlock r => r
  | _ => true

/-- Code cells of `content/04_model-evaluation.ipynb`, in order. -/
def modelEvalCells : List Cell :=
  [ [Stmt.call "imports", Stmt.call "src.theme.set", Stmt.call "def save"],
    [Stmt.call "np.random.default_rng 42", Stmt.call "pd.DataFrame",
     Stmt.call "metrics.roc_curve", Stmt.call "metrics.precision_recall_curve",
     Stmt.call "print aucs"],
    [Stmt.call "sns.swarmplot", Stmt.call "save swarm"],
    [Stmt.call "def roc_axis", Stmt.call "def pr_axis"],
    [Stmt.call "df.sort_values score_1", Stmt.call "cumsum columns",
     Stmt.call "plot buildup", Stmt.call "save buildup figures"],
    [Stmt.call "plot roc_filled", Stmt.call "save roc_filled"],
    [Stmt.call "plot roc_both_scores", Stmt.call "save roc_both_scores"],
    [Stmt.call "plot pr-curves-2", Stmt.call "save pr-curves-2"],
    [Stmt.call "np.random.default_rng 1", Stmt.call "pd.DataFrame imbalanced",
     Stmt.call "metrics.roc_curve", Stmt.call "cumsum tpr fdr"],
    [Stmt.call "sns.swarmplot", Stmt.call "save swarm_imbalanced"],
    [Stmt.call "plot roc_imbalance", Stmt.call "save pr_imbalance"] ]

/-- Code cells of `notebooks/6_svms.ipynb`, in order. -/
def svmCells : List Cell :=
  [ [Stmt.call "imports", Stmt.call "logging.basicConfig", Stmt.call "sns.set"],
    [Stmt.call "mokapot.read_pin to_df head"],
    [Stmt.call "np.random.seed 42", Stmt.call "mokapot.read_pin",
     Stmt.call "mokapot.brew"],
    [Stmt.call "psms.assign_confidence"],
    [Stmt.call "best_feature.plot_qvalues", Stmt.call "results.plot_qvalues",
     Stmt.call "plt.show"],
    [Stmt.call "mokapot.Model LogisticRegressionCV", Stmt.call "mokapot.brew lr"],
    [Stmt.call "results.plot_qvalues", Stmt.call "lr_results.plot_qvalues",
     Stmt.call "plt.show"],
    [Stmt.call "GridSearchCV SVC"] ]

/-- The cell of `notebooks/08_neural_networks.ipynb` that defines the
`CCSPredictor` class; its `step` method wraps the `peptide_encoder`
library call in `try`/`except IndexError`, whose handler prints the batch
and then re-raises the caught exception. -/
def nnModelCell : Cell :=
  [Stmt.call "class CCSPredictor", Stmt.tryBlock true]

/-- The test-set prediction cell of `notebooks/08_neural_networks.ipynb`:
its first statement is an unconditional `raise RuntimeError`, followed by
trainer creation, test-set prediction, inverse scaling and plotting. -/
def nnTestCell : Cell :=
  [ Stmt.raiseErr "Are you sure your ready to run this?",
    Stmt.call "pl.Trainer",
    Stmt.call "trainer.predict test_loader",
    Stmt.call "test_df.copy",
    Stmt.call "scaler.inverse_transform",
    Stmt.call "plt.viridis",
    Stmt.call "plt.figure",
    Stmt.call "plt.hexbin",
    Stmt.call "plt.axis",
    Stmt.call "plt.xlabel",
    Stmt.call "plt.ylabel",
    Stmt.call "plt.show" ]

/-- Code cells of `notebooks/08_neural_networks.ipynb`, in order. -/
def nnCells : List Cell :=
  [ [Stmt.call "pip install", Stmt.call "wget combined_sm.csv.tar.gz",
     Stmt.call "tar -xzvf"],
    [Stmt.call "imports", Stmt.call "sns.set_style",
     Stmt.call "pl.seed_everything 42"],
    [Stmt.call "pd.read_csv combined_sm.csv", Stmt.call "str.replace proforma",
     Stmt.condCheck "no unconverted modifications remain",
     Stmt.call "split test_df train_df validation_df", Stmt.call "print counts"],
    [Stmt.call "PeptideTokenizer.from_proforma"],
    [Stmt.call "StandardScaler", Stmt.call "PeptideDataset train",
     Stmt.call "PeptideDataset validation", Stmt.call "PeptideDataset test",
     Stmt.call "tensors to cuda"],
    [Stmt.call "dataset.loader"],
    nnModelCell,
    [Stmt.call "CCSPredictor 32 4", Stmt.call "class LossLogger",
     Stmt.call "pl.Trainer max_epochs 30"],
    [Stmt.call "trainer.fit"],
    [Stmt.call "plot losses"],
    [Stmt.call "trainer.predict validation_loader",
     Stmt.call "scaler.inverse_transform", Stmt.call "plt.hexbin",
     Stmt.call "plt.show"],
    nnTestCell ]

/-- The three executable notebooks of the repository. -/
def repoNotebooks : List (List Cell) :=
  [modelEvalCells, svmCells, nnCells]

/-- Whether no cell of any notebook contains exception-handling code. -/
def noHandlersAnywhere : Bool :=
  repoNotebooks.all fun nb => nb.all fun c => !(cellHasTry c)

/-- Whether every try/except block in every notebook has a handler that
re-raises, so that every library-raised exception still propagates to the
top level. -/
def allHandlersReraise : Bool :=
  repoNotebooks.all fun nb => nb.all fun c => c.all reraisesIfTry

/-- A Python class definition: its name, its base class, whether that
base comes from a third-party library, and the names of the methods the
class body defines. -/
structure PyClass where
  name : String
  base : String
  baseIsThirdParty : Bool
  methods : List String
deriving DecidableEq, Repr

/-- The `CCSPredictor` class of the neural-network notebook, a subclass
of the third-party training-loop base class `pl.LightningModule`. -/
def ccsPredictorClass : PyClass :=
  { name := "CCSPredictor"
    base := "pl.LightningModule"
    baseIsThirdParty := true
    methods := ["__init__", "step", "training_step", "validation_step",
                "predict_step", "configure_optimizers"] }

/-- The `LossLogger` class of the neural-network notebook, a subclass of
the third-party `Callback` base class. -/
def lossLoggerClass : PyClass :=
  { name := "LossLogger"
    base := "Callback"
    baseIsThirdParty := true
    methods := ["__init__", "on_train_epoch_end"] }

/-- All class definitions appearing anywhere in the repository. -/
def repoClasses : List PyClass :=
  [ccsPredictorClass, lossLoggerClass]

/-- The three Lightning step-callback methods. -/
def stepCallbacks : List String :=
  ["training_step", "validation_step", "predict_step"]

/-- The kinds of top-level actions the SVM notebook performs, in the
claims' vocabulary. -/
inductive SvmStep where
  | setup
  | readPinHead
  | seedSet
  | readPinPsms
  | brewSvm
  | assignConf
  | plotBestVsSvm
  | brewLr
  | plotSvmVsLr
  | questionCell
  | makeRbfGrid
deriving DecidableEq, BEq, Repr

/-- The actions of `notebooks/6_svms.ipynb` in execution (cell) order:
imports and setup; `read_pin(..., to_df=True).head()`; the seed,
`read_pin` and `brew` cell; `assign_confidence`; the first `plot_qvalues`
cell; the logistic-regression `brew` cell; the second `plot_qvalues`
cell; the closing questions; and the `GridSearchCV` starting-point cell. -/
def svmEvents : List SvmStep :=
  [ SvmStep.setup, SvmStep.readPinHead, SvmStep.seedSet, SvmStep.readPinPsms,
    SvmStep.brewSvm, SvmStep.assignConf, SvmStep.plotBestVsSvm, SvmStep.brewLr,
    SvmStep.plotSvmVsLr, SvmStep.questionCell, SvmStep.makeRbfGrid ]

/-- Position of an action in the SVM notebook's execution order. -/
def svmIdx (s : SvmStep) : ℕ :=
  svmEvents.indexOf s

/-- The coarse step kinds the spec's fixed order speaks of: load data,
fit a model, plot results, print a question, or none of these. -/
inductive StepKind where
  | load
  | fit
  | plot
  | question
  | other
deriving DecidableEq, Repr

/-- The kind of each SVM-notebook action in the spec's vocabulary. -/
def svmKind : SvmStep → StepKind
  | SvmStep.readPinHead => StepKind.load
  | SvmStep.readPinPsms => StepKind.load
  | SvmStep.brewSvm => StepKind.fit
  | SvmStep.brewLr => StepKind.fit
  | SvmStep.plotBestVsSvm => StepKind.plot
  | SvmStep.plotSvmVsLr => StepKind.plot
  | SvmStep.questionCell => StepKind.question
  | _ => StepKind.other

/-- The data-loading actions of the SVM notebook. -/
def svmLoads : List SvmStep := [SvmStep.readPinHead, SvmStep.readPinPsms]

/-- The model-fitting actions of the SVM notebook. -/
def svmFits : List SvmStep := [SvmStep.brewSvm, SvmStep.brewLr]

/-- The plotting actions of the SVM notebook. -/
def svmPlots : List SvmStep := [SvmStep.plotBestVsSvm, SvmStep.plotSvmVsLr]

/-- Claim C1: exactly one of the three notebooks contains a deliberate,
unconditional stop condition before the held-out test set is used: in the
neural-network notebook the test-set prediction cell opens with an
unconditional `raise`, so only that raise executes — none of the test-set
prediction, inverse-scaling or plotting statements of the cell is
reachable — while deleting that first line makes the whole remaining cell
execute. -/
theorem c1_single_stop_cell :
    repoNotebooks.countP hasStopCell = 1 ∧
    hasStopCell nnCells = true ∧
    hasStopCell modelEvalCells = false ∧
    hasStopCell svmCells = false ∧
    reached nnTestCell = [Stmt.raiseErr "Are you sure your ready to run this?"] ∧
    reached (nnTestCell.drop 1) = nnTestCell.drop 1 := by
  refine ⟨by decide, by decide, by decide, by decide, by decide, by decide⟩

/-- Claim C2 counterexample: it is not the case that no notebook cell
contains exception-handling code around a library call — the
`CCSPredictor` cell of the neural-network notebook wraps its
`peptide_encoder` library call in `try`/`except IndexError`. -/
theorem c2_counterexample :
    noHandlersAnywhere = false ∧
    cellHasTry nnModelCell = true ∧ nnModelCell ∈ nnCells := by
  refine ⟨by decide, by decide, by decide⟩

/-- Claim C2 (amended): exactly one notebook cell contains
exception-handling code — the `CCSPredictor` cell's
`try`/`except IndexError` around the `peptide_encoder` call — and its
handler prints the batch and re-raises the caught exception, so no
handler recovers and every library-raised exception still propagates to
the top level. -/
theorem c2_handlers_reraise :
    (repoNotebooks.map fun nb => nb.countP cellHasTry).sum = 1 ∧
    allHandlersReraise = true := by
  refine ⟨by decide, by decide⟩

/-- Claim C4 counterexample: the repository does not contain exactly one
class subclassing a third-party base — it contains two (`CCSPredictor`
and `LossLogger`); moreover `CCSPredictor` defines six methods, not
three. -/
theorem c4_counterexample :
    repoClasses.countP (fun c => c.baseIsThirdParty) = 2 ∧
    ¬ repoClasses.countP (fun c => c.baseIsThirdParty) = 1 ∧
    ccsPredictorClass.methods.length = 6 := by
  refine ⟨by decide, by decide, by decide⟩

/-- Claim C4 (amended): the repository contains exactly two class
definitions, both thin wrappers over third-party base classes and neither
subclassing a repository-defined class (so there is no deep inheritance);
the training-loop wrapper `CCSPredictor` subclasses `pl.LightningModule`
and specifies exactly the three step-callback methods `training_step`,
`validation_step` and `predict_step`, besides its constructor, the shared
`step` helper and `configure_optimizers`; `LossLogger` subclasses
`Callback` and specifies the single hook `on_train_epoch_end` besides its
constructor. -/
theorem c4_two_thin_wrappers :
    repoClasses.length = 2 ∧
    repoClasses.all (fun c => c.baseIsThirdParty) = true ∧
    repoClasses.all
      (fun c => !((repoClasses.map PyClass.name).contains c.base)) = true ∧
    ccsPredictorClass.base = "pl.LightningModule" ∧
    ccsPredictorClass.methods.filter (fun m => stepCallbacks.contains m)
      = stepCallbacks ∧
    ccsPredictorClass.methods
      = ["__init__", "step", "training_step", "validation_step",
         "predict_step", "configure_optimizers"] ∧
    lossLoggerClass.methods = ["__init__", "on_train_epoch_end"] := by
  refine ⟨by decide, by decide, by decide, by decide, by decide, by decide,
    by decide⟩

/-- Claim C8 counterexample: the notebook steps do not follow one fixed
load-fit-plot-question order with no step out of it — in the SVM
notebook itself a model-fitting step (the logistic-regression
`mokapot.brew`) executes after a plotting step (the first `plot_qvalues`
cell), so a fit occurs after a plot. -/
theorem c8_counterexample :
    svmKind SvmStep.plotBestVsSvm = StepKind.plot ∧
    svmKind SvmStep.brewLr = StepKind.fit ∧
    svmIdx SvmStep.plotBestVsSvm < svmIdx SvmStep.brewLr := by
  refine ⟨by decide, by decide, by decide⟩

/-- Claim C8 (amended): the SVM notebook is a linear cell sequence that
follows the load-fit-plot-question order per modelling round rather than
globally: every data-loading action precedes every model-fitting action;
the PSM file is read (`mokapot.read_pin`) before any model is fitted
(`mokapot.brew`); each fit completes before its results are plotted
(`plot_qvalues`), and both fitted results precede the plot that compares
them; and every plot precedes the closing questions. -/
theorem c8_svm_notebook_order :
    (svmLoads.all fun l => svmFits.all fun f =>
      decide (svmIdx l < svmIdx f)) = true ∧
    svmIdx SvmStep.readPinPsms < svmIdx SvmStep.brewSvm ∧
    svmIdx SvmStep.brewSvm < svmIdx SvmStep.plotBestVsSvm ∧
    svmIdx SvmStep.brewLr < svmIdx SvmStep.plotSvmVsLr ∧
    svmIdx SvmStep.brewSvm < svmIdx SvmStep.plotSvmVsLr ∧
    (svmPlots.all fun p =>
      decide (svmIdx p < svmIdx SvmStep.questionCell)) = true := by
  refine ⟨by decide, by decide, by decide, by decide, by decide, by decide⟩

/-- Running totals of a rational list starting from `acc`, modelling the
pandas `Series.cumsum` on a column. -/
def cumsumFrom (acc : ℚ) : List ℚ → List ℚ
  | [] => []
  | x :: xs => (acc + x) :: cumsumFrom (acc + x) xs

/-- Pandas `Series.cumsum`. -/
def cumsum (l : List ℚ) : List ℚ := cumsumFrom 0 l

/-- The numeric value of a boolean label, as pandas treats labels in
arithmetic. -/
def boolToQ (b : Bool) : ℚ := if b then 1 else 0

/-- Pandas `df.label.sum()`. -/
def labelSum (labels : List Bool) : ℚ := (labels.map boolToQ).sum

/-- The number of `True` labels, as a rational. -/
def count1 (labels : List Bool) : ℚ := ((labels.countP fun b => b : ℕ) : ℚ)

/-- The number of `False` labels, as a rational. -/
def count0 (labels : List Bool) : ℚ := ((labels.countP fun b => !b : ℕ) : ℚ)

/-- The `tpr` column of the manual build-up cell of the model-evaluation
notebook: `df.label.cumsum() / df.label.sum()`, computed on the label
column after the dataframe has been sorted by decreasing score. -/
def tprCol (labels : List Bool) : List ℚ :=
  (cumsum (labels.map boolToQ)).map fun x => x / labelSum labels

/-- The `fpr` column: `(~df.label).cumsum() / (~df.label).sum()`, the same
expression applied to the negated label column. -/
def fprCol (labels : List Bool) : List ℚ :=
  tprCol (labels.map fun b => !b)

/-- The `prc` column: `df.label.cumsum() / df.one.cumsum()`, where `one`
is the constant column 1. -/
def prcCol (labels : List Bool) : List ℚ :=
  List.zipWith (fun a b => a / b) (cumsum (labels.map boolToQ))
    (cumsum (labels.map fun _ => (1 : ℚ)))

/-- The `rec` column: `df.label.cumsum() / df.label.sum()` (the source
writes the same expression again for the recall column). -/
def recCol (labels : List Bool) : List ℚ :=
  (cumsum (labels.map boolToQ)).map fun x => x / labelSum labels

/-- Modelled from the spec: `sklearn.metrics.roc_curve` is an external
scikit-learn routine whose code is not in this repository.  On labels
listed in order of strictly decreasing, duplicate-free score it returns
one true-positive-rate value per threshold — the cumulative count of true
labels over the first `i+1` rows divided by the total — preceded by an
extra initial point 0 at an artificial highest threshold.  The library's
default dropping of collinear intermediate points is not modelled. -/
def roc_curve_tpr (labels : List Bool) : List ℚ :=
  0 :: (List.range labels.length).map fun i =>
    count1 (labels.take (i+1)) / count1 labels

/-- Modelled from the spec: the false-positive-rate output of
`sklearn.metrics.roc_curve`, under the same conventions as
`roc_curve_tpr`. -/
def roc_curve_fpr (labels : List Bool) : List ℚ :=
  0 :: (List.range labels.length).map fun i =>
    count0 (labels.take (i+1)) / count0 labels

/-- Index of the first threshold at which the cumulative true-positive
count reaches its total (full recall). -/
def lastFullRecall (labels : List Bool) : ℕ :=
  (List.range labels.length).findIdx fun i =>
    (labels.take (i+1)).countP (fun b => b) == labels.countP fun b => b

/-- Modelled from the spec: the precision output of
`sklearn.metrics.precision_recall_curve`, an external scikit-learn
routine whose code is not in this repository.  On duplicate-free
descending scores it computes precision at each threshold, keeps only
thresholds up to the first attaining full recall, lists them in
increasing-threshold order (reversed), and appends a final precision
value 1. -/
def pr_curve_precision (labels : List Bool) : List ℚ :=
  (((List.range labels.length).map fun i =>
      count1 (labels.take (i+1)) / ((i+1 : ℕ) : ℚ)).take
        (lastFullRecall labels + 1)).reverse ++ [1]

/-- Modelled from the spec: the recall output of
`sklearn.metrics.precision_recall_curve`, under the same conventions as
`pr_curve_precision`, with a final recall value 0 appended. -/
def pr_curve_recall (labels : List Bool) : List ℚ :=
  (((List.range labels.length).map fun i =>
      count1 (labels.take (i+1)) / count1 labels).take
        (lastFullRecall labels + 1)).reverse ++ [0]

/-- Running totals of a mapped column are the sums of its prefixes. -/
theorem cumsumFrom_map {α : Type} (f : α → ℚ) (l : List α) :
    ∀ acc : ℚ, cumsumFrom acc (l.map f) =
      (List.range l.length).map fun i => acc + ((l.take (i+1)).map f).sum := by
  induction l with
  | nil => intro acc; rfl
  | cons a l ih =>
    intro acc
    simp only [List.map_cons, cumsumFrom, ih (acc + f a), List.length_cons,
      List.range_succ_eq_map, List.map_map]
    refine List.cons_eq_cons.mpr ⟨?_, ?_⟩
    · simp
    · refine List.map_congr_left fun i _ => ?_
      simp [Function.comp, List.take_succ_cons, add_assoc]

/-- The sum of the numeric label column is the count of true labels. -/
theorem sum_map_boolToQ (l : List Bool) : (l.map boolToQ).sum = count1 l := by
  induction l with
  | nil => simp [count1]
  | cons b l ih =>
    cases b <;>
      simp [boolToQ, count1, List.countP_cons, ih] <;> push_cast <;> ring

/-- The sum of the constant-one column over a list is its length. -/
theorem sum_ones {α : Type} (l : List α) :
    (l.map fun _ => (1 : ℚ)).sum = (l.length : ℚ) := by
  induction l with
  | nil => simp
  | cons a l ih => simp [ih]; ring

/-- The manual `tpr` column in closed form: cumulative true counts over
prefixes, divided by the total true count. -/
theorem tprCol_eq_counts (l : List Bool) :
    tprCol l = (List.range l.length).map fun i =>
      count1 (l.take (i+1)) / count1 l := by
  unfold tprCol cumsum labelSum
  rw [cumsumFrom_map boolToQ l 0, List.map_map]
  refine List.map_congr_left fun i _ => ?_
  simp only [Function.comp, zero_add]
  rw [sum_map_boolToQ, sum_map_boolToQ]

/-- Counting true labels in a negated column counts the false labels. -/
theorem count1_map_not (l : List Bool) :
    count1 (l.map fun b => !b) = count0 l := by
  simp only [count1, count0, List.countP_map]
  rfl

/-- The manual `fpr` column in closed form. -/
theorem fprCol_eq_counts (l : List Bool) :
    fprCol l = (List.range l.length).map fun i =>
      count0 (l.take (i+1)) / count0 l := by
  unfold fprCol
  rw [tprCol_eq_counts]
  simp only [List.length_map]
  refine List.map_congr_left fun i _ => ?_
  rw [← List.map_take, count1_map_not, count1_map_not]

/-- Zipping two columns mapped from the same rows combines them
pointwise. -/
theorem zipWith_map_same {α β γ δ : Type} (f : β → γ → δ) (g : α → β)
    (h : α → γ) : ∀ l : List α,
    List.zipWith f (l.map g) (l.map h) = l.map fun a => f (g a) (h a)
  | [] => rfl
  | a :: l => by
    simp only [List.map_cons, List.zipWith_cons_cons,
      zipWith_map_same f g h l]

/-- The manual `prc` column in closed form: cumulative true counts over
prefixes, divided by the number of rows so far. -/
theorem prcCol_eq_counts (l : List Bool) :
    prcCol l = (List.range l.length).map fun i =>
      count1 (l.take (i+1)) / ((i+1 : ℕ) : ℚ) := by
  unfold prcCol cumsum
  rw [cumsumFrom_map boolToQ l 0, cumsumFrom_map (fun _ => (1 : ℚ)) l 0,
    zipWith_map_same]
  refine List.map_congr_left fun i hi => ?_
  have hin : i + 1 ≤ l.length := Nat.succ_le_of_lt (List.mem_range.mp hi)
  simp only [zero_add]
  rw [sum_map_boolToQ, sum_ones, List.length_take, Nat.min_eq_left hin]

/-- The manual `rec` column in closed form. -/
theorem recCol_eq_counts (l : List Bool) :
    recCol l = (List.range l.length).map fun i =>
      count1 (l.take (i+1)) / count1 l := by
  unfold recCol cumsum labelSum
  rw [cumsumFrom_map boolToQ l 0, List.map_map]
  refine List.map_congr_left fun i _ => ?_
  simp only [Function.comp, zero_add]
  rw [sum_map_boolToQ, sum_map_boolToQ]

/-- Claim C3 counterexample: on the sorted, duplicate-free-score input
with labels `[true, false]`, the manually built `tpr`/`fpr`/`prc`/`rec`
columns do not equal the values the scikit-learn routines return — the
library output has an extra initial ROC point (0,0), and its
precision-recall output is reversed with an appended endpoint. -/
theorem c3_counterexample :
    ¬ (tprCol [true, false] = roc_curve_tpr [true, false] ∧
       fprCol [true, false] = roc_curve_fpr [true, false] ∧
       prcCol [true, false] = pr_curve_precision [true, false] ∧
       recCol [true, false] = pr_curve_recall [true, false]) := by
  intro h
  have hlen := congrArg List.length h.1
  simp [tprCol, roc_curve_tpr, cumsum, cumsumFrom] at hlen

/-- Claim C3 (amended): for every sorted, duplicate-free-score input, the
manually built columns coincide with the modelled scikit-learn outputs up
to the library's presentation: `roc_curve` returns exactly the manual
`tpr`/`fpr` columns preceded by the extra initial point 0 (with its
optional dropping of collinear intermediate points disabled), and
`precision_recall_curve` returns exactly the manual `prc`/`rec` columns
truncated at the first threshold attaining full recall, reversed, with
the endpoint precision 1 / recall 0 appended. -/
theorem c3_manual_refines_library (l : List Bool) :
    roc_curve_tpr l = 0 :: tprCol l ∧
    roc_curve_fpr l = 0 :: fprCol l ∧
    pr_curve_precision l
      = ((prcCol l).take (lastFullRecall l + 1)).reverse ++ [1] ∧
    pr_curve_recall l
      = ((recCol l).take (lastFullRecall l + 1)).reverse ++ [0] := by
  refine ⟨?_, ?_, ?_, ?_⟩
  · rw [tprCol_eq_counts]; rfl
  · rw [fprCol_eq_counts]; rfl
  · rw [prcCol_eq_counts]; rfl
  · rw [recCol_eq_counts]; rfl

/-- A list with a true element has a positive true count. -/
theorem count1_pos (l : List Bool) (h : true ∈ l) : 0 < count1 l := by
  unfold count1
  have hp : 0 < l.countP (fun b => b) := List.countP_pos_iff.mpr ⟨true, h, rfl⟩
  exact_mod_cast hp

/-- Cumulative true counts are monotone in the prefix length. -/
theorem count1_take_mono (l : List Bool) {i j : ℕ} (hij : i ≤ j) :
    count1 (l.take i) ≤ count1 (l.take j) := by
  unfold count1
  have hsub : List.Sublist (l.take i) (l.take j) := by
    have : l.take i = (l.take j).take i := by
      rw [List.take_take, Nat.min_eq_left hij]
    rw [this]
    exact List.take_sublist i (l.take j)
  exact_mod_cast hsub.countP_le _

/-- A prefix never holds more true labels than the whole list. -/
theorem count1_take_le (l : List Bool) (i : ℕ) :
    count1 (l.take i) ≤ count1 l := by
  unfold count1
  exact_mod_cast (List.take_sublist i l).countP_le _

/-- Cumulative true counts are nonnegative. -/
theorem count1_nonneg (l : List Bool) : 0 ≤ count1 l := by
  unfold count1
  positivity

/-- The properties of a cumulative-rate column on any label list holding
at least one true label: its divisor is nonzero, it is nondecreasing,
every entry lies in the unit interval, and its final entry is exactly 1. -/
theorem tprCol_props (l : List Bool) (h : true ∈ l) :
    count1 l ≠ 0 ∧ (tprCol l).Pairwise (· ≤ ·) ∧
    (∀ x ∈ tprCol l, 0 ≤ x ∧ x ≤ 1) ∧ (tprCol l).getLast? = some 1 := by
  have hP : 0 < count1 l := count1_pos l h
  rw [tprCol_eq_counts]
  refine ⟨ne_of_gt hP, ?_, ?_, ?_⟩
  · rw [List.pairwise_map]
    refine (List.pairwise_lt_range _).imp fun hij => ?_
    exact div_le_div_of_nonneg_right
      (count1_take_mono l (by omega)) (le_of_lt hP)
  · intro x hx
    rcases List.mem_map.mp hx with ⟨i, _, rfl⟩
    exact ⟨div_nonneg (count1_nonneg _) (le_of_lt hP),
      (div_le_one hP).mpr (count1_take_le l (i + 1))⟩
  · have hnil : l ≠ [] := List.ne_nil_of_mem h
    obtain ⟨m, hm⟩ := Nat.exists_eq_succ_of_ne_zero
      (fun h0 => hnil (List.length_eq_zero.mp h0))
    rw [hm, List.range_succ, List.map_append, List.map_singleton,
      List.getLast?_concat]
    have hfull : l.take (m + 1) = l := by
      rw [show m + 1 = l.length from by omega]
      exact List.take_length l
    rw [hfull, div_self (ne_of_gt hP)]

/-- Negating a label list that holds a false label yields one holding a
true label. -/
theorem mem_not_of_mem_false (l : List Bool) (h : false ∈ l) :
    true ∈ l.map fun b => !b :=
  List.mem_map.mpr ⟨false, h, rfl⟩

/-- Claim C5: for every list of boolean labels holding at least one true
and at least one false label, both divisors of the cumulative `tpr` and
`fpr` columns of the model-evaluation notebook are nonzero, each column
is nondecreasing with every entry in the unit interval, and each column's
final entry is exactly 1. -/
theorem c5_cumulative_rate_columns (l : List Bool)
    (h1 : true ∈ l) (h0 : false ∈ l) :
    count1 l ≠ 0 ∧ count0 l ≠ 0 ∧
    (tprCol l).Pairwise (· ≤ ·) ∧ (∀ x ∈ tprCol l, 0 ≤ x ∧ x ≤ 1) ∧
    (tprCol l).getLast? = some 1 ∧
    (fprCol l).Pairwise (· ≤ ·) ∧ (∀ x ∈ fprCol l, 0 ≤ x ∧ x ≤ 1) ∧
    (fprCol l).getLast? = some 1 := by
  obtain ⟨hPne, hmono, hbox, hlast⟩ := tprCol_props l h1
  obtain ⟨hNne, hmono0, hbox0, hlast0⟩ :=
    tprCol_props (l.map fun b => !b) (mem_not_of_mem_false l h0)
  rw [count1_map_not] at hNne
  exact ⟨hPne, hNne, hmono, hbox, hlast, hmono0, hbox0, hlast0⟩

/-- Claim C5 witness: the hypotheses are satisfiable — on the concrete
label list `[true, false]` both classes occur, and the conclusion holds
there. -/
theorem c5_witness :
    (true ∈ [true, false] ∧ false ∈ [true, false]) ∧
    (count1 [true, false] ≠ 0 ∧ count0 [true, false] ≠ 0 ∧
     (tprCol [true, false]).Pairwise (· ≤ ·) ∧
     (∀ x ∈ tprCol [true, false], 0 ≤ x ∧ x ≤ 1) ∧
     (tprCol [true, false]).getLast? = some 1 ∧
     (fprCol [true, false]).Pairwise (· ≤ ·) ∧
     (∀ x ∈ fprCol [true, false], 0 ≤ x ∧ x ≤ 1) ∧
     (fprCol [true, false]).getLast? = some 1) :=
  ⟨⟨by decide, by decide⟩,
    c5_cumulative_rate_columns [true, false] (by decide) (by decide)⟩

/-- The characters of the figure-name tag the `save` helper of the
model-evaluation notebook prepends (filenames are modelled as character
lists). -/
def tag04 : List Char := ['0', '4', '_']

/-- The characters of the file extension the `save` helper appends. -/
def pngExt : List Char := ['.', 'p', 'n', 'g']

/-- The characters of the directory the `save` helper writes into. -/
def figuresDir : List Char := ['f', 'i', 'g', 'u', 'r', 'e', 's']

/-- The first normalization step of `save`:
`if not fname.startswith("04_"): fname = "04_" + fname`. -/
def addTag (fname : List Char) : List Char :=
  if tag04.isPrefixOf fname then fname else tag04 ++ fname

/-- The second normalization step of `save`:
`if not fname.endswith(".png"): fname += ".png"`. -/
def addExt (fname : List Char) : List Char :=
  if pngExt.isSuffixOf fname then fname else fname ++ pngExt

/-- The filename under which `save` stores a figure. -/
def save_fname (fname : List Char) : List Char :=
  addExt (addTag fname)

/-- The full path `save` passes to `plt.savefig`:
`Path("figures") / fname`. -/
def save_path (fname : List Char) : List Char :=
  figuresDir ++ '/' :: save_fname fname

/-- A list is a boolean prefix of itself followed by anything. -/
theorem isPrefixOf_self_append (t s : List Char) :
    t.isPrefixOf (t ++ s) = true := by
  induction t with
  | nil => simp [List.isPrefixOf]
  | cons c t ih => simp [List.isPrefixOf, ih]

/-- Extending a list on the right preserves its boolean prefixes. -/
theorem isPrefixOf_append_right (p : List Char) :
    ∀ t : List Char, ∀ u : List Char,
      p.isPrefixOf t = true → p.isPrefixOf (t ++ u) = true := by
  induction p with
  | nil => intro t u _; simp [List.isPrefixOf]
  | cons c p ih =>
    intro t u h
    cases t with
    | nil => simp [List.isPrefixOf] at h
    | cons d t =>
      simp only [List.isPrefixOf, List.cons_append, Bool.and_eq_true,
        beq_iff_eq] at h ⊢
      exact ⟨h.1, ih t u h.2⟩

/-- A list is a boolean suffix of anything followed by itself. -/
theorem isSuffixOf_append_self (t s : List Char) :
    t.isSuffixOf (s ++ t) = true := by
  simp only [List.isSuffixOf, List.reverse_append]
  exact isPrefixOf_self_append t.reverse s.reverse

/-- The tag step always leaves the tag as a leading substring. -/
theorem addTag_tagged (fname : List Char) :
    tag04.isPrefixOf (addTag fname) = true := by
  unfold addTag
  by_cases h : tag04.isPrefixOf fname = true
  · simp [h]
  · simp only [h, if_false, Bool.false_eq_true]
    exact isPrefixOf_self_append tag04 fname

/-- The extension step always leaves the extension as a trailing
substring. -/
theorem addExt_extended (fname : List Char) :
    pngExt.isSuffixOf (addExt fname) = true := by
  unfold addExt
  by_cases h : pngExt.isSuffixOf fname = true
  · simp [h]
  · simp only [h, if_false, Bool.false_eq_true]
    exact isSuffixOf_append_self pngExt fname

/-- The extension step preserves a leading tag. -/
theorem addExt_keeps_tag (fname : List Char)
    (h : tag04.isPrefixOf fname = true) :
    tag04.isPrefixOf (addExt fname) = true := by
  unfold addExt
  by_cases h2 : pngExt.isSuffixOf fname = true
  · simpa [h2] using h
  · simp only [h2, if_false, Bool.false_eq_true]
    exact isPrefixOf_append_right tag04 fname pngExt h

/-- The tag step does nothing on an already-tagged name. -/
theorem addTag_of_tagged (fname : List Char)
    (h : tag04.isPrefixOf fname = true) : addTag fname = fname := by
  unfold addTag
  simp [h]

/-- The extension step does nothing on a name already carrying the
extension. -/
theorem addExt_of_extended (fname : List Char)
    (h : pngExt.isSuffixOf fname = true) : addExt fname = fname := by
  unfold addExt
  simp [h]

/-- Claim C6: every figure the model-evaluation notebook saves goes into
the local `figures` directory, under a name that starts with `04_` and
ends with `.png` (the tag prepended when absent, the extension appended
when absent), and the normalization is idempotent: applying it to an
already-normalized name leaves the name unchanged. -/
theorem c6_save_normalization (fname : List Char) :
    tag04.isPrefixOf (save_fname fname) = true ∧
    pngExt.isSuffixOf (save_fname fname) = true ∧
    (figuresDir ++ ['/']).isPrefixOf (save_path fname) = true ∧
    save_fname (save_fname fname) = save_fname fname := by
  have htag : tag04.isPrefixOf (save_fname fname) = true :=
    addExt_keeps_tag (addTag fname) (addTag_tagged fname)
  have hext : pngExt.isSuffixOf (save_fname fname) = true :=
    addExt_extended (addTag fname)
  refine ⟨htag, hext, ?_, ?_⟩
  · unfold save_path
    rw [List.append_cons]
    exact isPrefixOf_self_append (figuresDir ++ ['/']) (save_fname fname)
  · calc save_fname (save_fname fname)
        = addExt (addTag (save_fname fname)) := rfl
    _ = addExt (save_fname fname) := by rw [addTag_of_tagged _ htag]
    _ = save_fname fname := addExt_of_extended _ hext

/-- A row of the sampled CCS data of the neural-network notebook: its
ProteomeTools flag (the `PT` column) together with the payload columns
the split never inspects. -/
structure SampleRow where
  pt : Bool
  seq : String
  charge : ℤ
  ccs : ℚ
deriving DecidableEq, Repr

/-- `test_df = data.loc[data["PT"], :]`. -/
def test_df (data : List SampleRow) : List SampleRow :=
  data.filter fun r => r.pt

/-- `data_df = data.loc[~data["PT"], :]`. -/
def data_df (data : List SampleRow) : List SampleRow :=
  data.filter fun r => !r.pt

/-- `n_train = int(0.8 * len(data_df))`; the float truncation is modelled
as the natural-number floor of 8·len/10, with which it agrees for every
realistic dataset size. -/
def n_train (data : List SampleRow) : ℕ :=
  8 * (data_df data).length / 10

/-- `train_df = data_df.iloc[:n_train, :]`. -/
def train_df (data : List SampleRow) : List SampleRow :=
  (data_df data).take (n_train data)

/-- `validation_df = data_df.iloc[n_train:, :]`. -/
def validation_df (data : List SampleRow) : List SampleRow :=
  (data_df data).drop (n_train data)

/-- The training fraction never exceeds the whole. -/
theorem n_train_le (data : List SampleRow) :
    n_train data ≤ (data_df data).length := by
  unfold n_train
  calc 8 * (data_df data).length / 10
      ≤ 10 * (data_df data).length / 10 :=
        Nat.div_le_div_right (by omega)
    _ = (data_df data).length :=
        Nat.mul_div_cancel_left _ (by norm_num)

/-- Claim C9: the split of the neural-network notebook partitions the
sampled rows — test, train and validation rows together are a
permutation of the data, so no row is duplicated and none is dropped,
every row lands in exactly one split (stated per row via multiplicity),
the training split holds exactly `int(0.8 * len(data_df))` rows and the
validation split the remaining `len(data_df) - int(0.8 * len(data_df))`
rows of the PT-false data. -/
theorem c9_split_partition (data : List SampleRow) :
    List.Perm (test_df data ++ (train_df data ++ validation_df data)) data ∧
    (train_df data).length = n_train data ∧
    (validation_df data).length = (data_df data).length - n_train data ∧
    ∀ r : SampleRow,
      (test_df data).count r + ((train_df data).count r +
        (validation_df data).count r) = data.count r := by
  have hrest : train_df data ++ validation_df data = data_df data :=
    List.take_append_drop _ _
  have hperm :
      List.Perm (test_df data ++ (train_df data ++ validation_df data)) data := by
    rw [hrest]
    exact List.filter_append_perm (fun r => r.pt) data
  refine ⟨hperm, ?_, ?_, ?_⟩
  · unfold train_df
    rw [List.length_take]
    exact Nat.min_eq_left (n_train_le data)
  · unfold validation_df
    exact List.length_drop _ _
  · intro r
    have hc := hperm.count_eq r
    simpa [List.count_append] using hc

/-- The state of the numpy pseudorandom generator, modelled from the
spec: the external `numpy` library's `default_rng` generator is a
deterministic pseudorandom stream fully determined by its integer seed;
its state is the seed together with the number of variates drawn so
far. -/
structure RngState where
  seed : ℕ
  drawn : ℕ
deriving DecidableEq, Repr

/-- `np.random.default_rng(seed)`: a fresh generator state. -/
def default_rng (seed : ℕ) : RngState :=
  { seed := seed, drawn := 0 }

/-- Modelled from the spec: `rng.normal(mu, sigma, size)` of the external
numpy library — the next `size` variates of the seed-determined stream
`gauss`, location-scale transformed, together with the advanced
generator state. -/
def normalDraw (gauss : ℕ → ℕ → ℚ) (g : RngState) (mu sigma : ℚ)
    (size : ℕ) : List ℚ × RngState :=
  ((List.range size).map fun i => mu + sigma * gauss g.seed (g.drawn + i),
    { seed := g.seed, drawn := g.drawn + size })

/-- The balanced example dataframe of the model-evaluation notebook:
label, disease, and the two score columns. -/
structure EvalFrame where
  label : List Bool
  disease : List String
  score_1 : List ℚ
  score_2 : List ℚ
deriving DecidableEq, Repr

/-- The balanced-example cell of the model-evaluation notebook: it first
rebinds the generator to `np.random.default_rng(42)` — discarding
whatever generator state `_prior` an earlier execution left behind — and
then builds the 20+20-row dataframe, drawing the four normal samples in
order. -/
def buildBalanced (gauss : ℕ → ℕ → ℚ) (_prior : RngState) : EvalFrame :=
  let rng0 := default_rng 42
  let d1 := normalDraw gauss rng0 (7/2) 1 20
  let d2 := normalDraw gauss d1.2 2 1 20
  let d3 := normalDraw gauss d2.2 4 1 20
  let d4 := normalDraw gauss d3.2 2 1 20
  { label := List.replicate 20 true ++ List.replicate 20 false
    disease := List.replicate 20 "Case" ++ List.replicate 20 "Control"
    score_1 := d1.1 ++ d2.1
    score_2 := d3.1 ++ d4.1 }

/-- The imbalanced-dataset cell of the model-evaluation notebook: it
rebinds the generator to `np.random.default_rng(1)` — again discarding
any prior state — and builds the 5+95-row dataframe. -/
def buildImbalanced (gauss : ℕ → ℕ → ℚ) (_prior : RngState) : EvalFrame :=
  let rng0 := default_rng 1
  let d1 := normalDraw gauss rng0 5 1 5
  let d2 := normalDraw gauss d1.2 3 2 95
  let d3 := normalDraw gauss d2.2 5 1 5
  let d4 := normalDraw gauss d3.2 3 1 95
  { label := List.replicate 5 true ++ List.replicate 95 false
    disease := List.replicate 5 "Case" ++ List.replicate 95 "Control"
    score_1 := d1.1 ++ d2.1
    score_2 := d3.1 ++ d4.1 }

/-- Claim C7: in both datasets the model-evaluation notebook constructs,
the label column is exactly n `True` rows followed by m `False` rows
(20+20 balanced, 5+95 imbalanced), and every score column — numeric by
construction, being built from rational normal draws — has exactly one
entry per label row. -/
theorem c7_dataframe_invariants (gauss : ℕ → ℕ → ℚ) (s : RngState) :
    (buildBalanced gauss s).label
      = List.replicate 20 true ++ List.replicate 20 false ∧
    (buildBalanced gauss s).label.countP (fun b => b) = 20 ∧
    (buildBalanced gauss s).label.length = 40 ∧
    (buildBalanced gauss s).score_1.length
      = (buildBalanced gauss s).label.length ∧
    (buildBalanced gauss s).score_2.length
      = (buildBalanced gauss s).label.length ∧
    (buildBalanced gauss s).disease.length
      = (buildBalanced gauss s).label.length ∧
    (buildImbalanced gauss s).label
      = List.replicate 5 true ++ List.replicate 95 false ∧
    (buildImbalanced gauss s).label.countP (fun b => b) = 5 ∧
    (buildImbalanced gauss s).label.length = 100 ∧
    (buildImbalanced gauss s).score_1.length
      = (buildImbalanced gauss s).label.length ∧
    (buildImbalanced gauss s).score_2.length
      = (buildImbalanced gauss s).label.length := by
  refine ⟨rfl, rfl, rfl, ?_, ?_, ?_, rfl, rfl, rfl, ?_, ?_⟩ <;>
    simp [buildBalanced, buildImbalanced, normalDraw]

/-- Claim C10: the example-data construction is deterministic across
runs — because each data-generation cell creates its generator from a
fixed seed (42 balanced, 1 imbalanced) before any draw, the dataframes it
builds do not depend on the generator state left by any earlier
execution, so two executions produce identical dataframes and hence
identical downstream ROC points. -/
theorem c10_seeded_determinism (gauss : ℕ → ℕ → ℚ) (s1 s2 : RngState) :
    buildBalanced gauss s1 = buildBalanced gauss s2 ∧
    buildImbalanced gauss s1 = buildImbalanced gauss s2 ∧
    tprCol (buildBalanced gauss s1).label
      = tprCol (buildBalanced gauss s2).label ∧
    roc_curve_tpr (buildBalanced gauss s1).label
      = roc_curve_tpr (buildBalanced gauss s2).label :=
  ⟨rfl, rfl, rfl, rfl⟩
